import Mathlib

/-!
# Verification of the DEMIO fleet-telemetry overlay core

A shallow embedding, in Lean 4, of the telemetry simulation and adaptive
overlay rendering pipeline of the DEMIO repository:

* the overlay object pool of `ParticlesOptimized`
  (`createObjectPool` / `getActiveObject` / `releaseObject` /
  `updateDisplayMetrics` in
  `src/js/gl/World/Geometry/ParticlesOptimized.js`);
* the performance governor (`checkPerformance`, `getOptimalTextCount`);
* the per-frame critical update (`updateCritical`, `updateNonCritical`);
* the fleet simulation of `FleetTelematicsData`
  (`initializeFleet`, `updateVehicleLocation`, `updateFuelData`,
  `updateEngineData`, `updateDriverBehavior`, `updateVehicleStatus`,
  `getFleetSummary`, `getDisplayMetrics` in
  `src/js/gl/World/Geometry/Particles.js`).

JavaScript numbers are embedded as `ℚ` (every literal in the source is a
decimal fraction, and all properties proved here are order/clamp facts that
are insensitive to the ℝ/ℚ distinction).  `Math.random()` results are passed
in explicitly as rational parameters assumed to lie in `[0, 1)`.
`Math.sin`/`Math.cos`/`Math.PI`, which the source uses only to build the
flat-earth lat/lng displacement and the projected screen position, are passed
in as an abstract `Trig` structure; no property of them is assumed.
Wall-clock timestamp fields (`lastFill`, `lastUpdate`) and the DOM string
formatting of labels (`toFixed`) are not modelled; no claim refers to them.
-/

/-- `q` is a possible result of `Math.random()`: a number in `[0, 1)`. -/
def InUnit (q : ℚ) : Prop := 0 ≤ q ∧ q < 1

instance (q : ℚ) : Decidable (InUnit q) := by unfold InUnit; infer_instance

/-- JavaScript `Math.round` for the (nonnegative) values that reach it:
round half toward `+∞`. -/
def jsRound (q : ℚ) : ℤ := ⌊q + 1/2⌋

/-- JavaScript `x % m` for the nonnegative operands that reach it. -/
def fmod (a b : ℚ) : ℚ := a - b * (⌊a / b⌋ : ℚ)

/-- `Math.floor`, landing in `ℕ` (all uses in the source are on
nonnegative values). -/
def natFloor (q : ℚ) : ℕ := (⌊q⌋).toNat

/-! ## The overlay object pool (`ParticlesOptimized`)

A pooled object (`textElementPool[i]`) is identified by its creation index
`i`.  The pool state carries the `activeElements` and `inactiveElements`
arrays (as Lean lists in the same order) together with the per-object
mutable booleans `isActive` (`obj.isActive`), `disp`
(`obj.element.style.display === 'block'`) and `vis`
(`obj.mesh.userData.isVisible`), as total maps from object ids. -/

structure Pool where
  active : List ℕ
  inactive : List ℕ
  flag : ℕ → Bool
  disp : ℕ → Bool
  vis : ℕ → Bool

/-- Point update of a boolean field map. -/
def updMap (f : ℕ → Bool) (k : ℕ) (b : Bool) : ℕ → Bool :=
  fun i => if i = k then b else f i

/-- `createObjectPool`: `poolSize` objects are created with
`isActive: false`, hidden elements, and all pushed onto
`inactiveElements`. -/
def createObjectPool (n : ℕ) : Pool :=
  { active := []
    inactive := List.range n
    flag := fun _ => false
    disp := fun _ => false
    vis := fun _ => false }

/-- `getActiveObject()`: if `inactiveElements` is nonempty, `pop()` its last
element, set `isActive = true`, push it onto `activeElements` and return it;
otherwise return `null`. -/
def getActiveObject (s : Pool) : Option ℕ × Pool :=
  match s.inactive.getLast? with
  | none => (none, s)
  | some o =>
      (some o,
        { active := s.active ++ [o]
          inactive := s.inactive.dropLast
          flag := updMap s.flag o true
          disp := s.disp
          vis := s.vis })

/-- `releaseObject(obj)`: early-return when `!obj.isActive`; otherwise clear
`isActive`, hide the element, clear `userData.isVisible`, and if the object
occurs in `activeElements` (`indexOf > -1`) splice it out and push it onto
`inactiveElements`. -/
def releaseObject (s : Pool) (o : ℕ) : Pool :=
  if s.flag o then
    let s1 : Pool :=
      { s with
        flag := updMap s.flag o false
        disp := updMap s.disp o false
        vis := updMap s.vis o false }
    if o ∈ s.active then
      { s1 with active := s1.active.erase o, inactive := s1.inactive ++ [o] }
    else s1
  else s

/-- The release loop of `updateDisplayMetrics`:
`while (activeElements.length > textCount) releaseObject(last)`.
The guard `h2` stops the recursion if a release fails to shrink
`activeElements`; under the pool invariant that branch is never taken
(the last active object always has `isActive = true`). -/
def releaseExcess (target : ℕ) (s : Pool) : Pool :=
  if _h : target < s.active.length then
    match s.active.getLast? with
    | some o =>
        let s' := releaseObject s o
        if h2 : s'.active.length < s.active.length then releaseExcess target s'
        else s'
    | none => s
  else s
termination_by s.active.length
decreasing_by exact h2

/-- The activation loop of `updateDisplayMetrics`:
`while (activeElements.length < min(textCount, currentMetrics.length))`
call `getActiveObject()` (inlined success branch), break on `null`, and show
the acquired element (`display = 'block'`, `userData.isVisible = true`). -/
def acquireNeeded (target m : ℕ) (s : Pool) : Pool :=
  if h : s.active.length < min target m then
    match s.inactive.getLast? with
    | some o =>
        acquireNeeded target m
          { active := s.active ++ [o]
            inactive := s.inactive.dropLast
            flag := updMap s.flag o true
            disp := updMap s.disp o true
            vis := updMap s.vis o true }
    | none => s
  else s
termination_by min target m - s.active.length
decreasing_by
  simp only [List.length_append, List.length_cons, List.length_nil]
  exact Nat.sub_lt_sub_left h (Nat.lt_succ_self _)

/-- `updateDisplayMetrics()` with `textCount = target` and
`currentMetrics.length = m`: release excess objects, then activate needed
objects.  The trailing `forEach` only rewrites element text content
(`updateElementContent`), which touches no modelled field. -/
def updateDisplayMetrics (target m : ℕ) (s : Pool) : Pool :=
  acquireNeeded target m (releaseExcess target s)

/-! ## The performance governor -/

/-- `getOptimalTextCount()`: capability-derived baseline ceiling. -/
def getOptimalTextCount (isMobile isLowEnd : Bool) : ℕ :=
  if isMobile then 12 else if isLowEnd then 16 else 24

/-- The FPS figure the spec names: `measuredFPS = frames * 1000 / windowMs`. -/
def measuredFPS (frames : ℕ) (windowMs : ℚ) : ℚ := 1000 * frames / windowMs

/-- `checkPerformance()`: compute
`currentFPS = Math.round(1000 * frameCount / deltaTime)` and adjust
`settings.textCount`: down two (floor 8) when `currentFPS < 30 && textCount > 8`,
up one (ceiling `getOptimalTextCount()`) when
`currentFPS > 50 && textCount < optimal`. -/
def checkPerformance (frames : ℕ) (windowMs : ℚ) (textCount optimal : ℕ) : ℕ :=
  let currentFPS := jsRound (measuredFPS frames windowMs)
  if currentFPS < 30 ∧ 8 < textCount then max 8 (textCount - 2)
  else if 50 < currentFPS ∧ textCount < optimal then min optimal (textCount + 1)
  else textCount

/-! ## The pool representation invariant -/

/-- The pool representation invariant (claim C10): `activeElements` and
`inactiveElements` are duplicate-free and disjoint, together they hold
exactly the `poolSize` created objects, and `obj.isActive` holds exactly for
the members of `activeElements`. -/
structure PoolInv (n : ℕ) (s : Pool) : Prop where
  nodupA : s.active.Nodup
  nodupI : s.inactive.Nodup
  disj : ∀ i, i ∈ s.active → i ∉ s.inactive
  mem_iff : ∀ i, (i ∈ s.active ∨ i ∈ s.inactive) ↔ i < n
  flag_iff : ∀ i, s.flag i = true ↔ i ∈ s.active

theorem poolInv_create (n : ℕ) : PoolInv n (createObjectPool n) := by
  refine ⟨List.nodup_nil, List.nodup_range n, ?_, ?_, ?_⟩ <;>
    simp [createObjectPool]

theorem PoolInv.length_sum {n : ℕ} {s : Pool} (h : PoolInv n s) :
    s.active.length + s.inactive.length = n := by
  have hnd : (s.active ++ s.inactive).Nodup :=
    List.nodup_append.2 ⟨h.nodupA, h.nodupI, fun i hi => h.disj i hi⟩
  have hperm : (s.active ++ s.inactive).Perm (List.range n) := by
    rw [List.perm_ext_iff_of_nodup hnd (List.nodup_range n)]
    intro a
    rw [List.mem_append, List.mem_range]
    exact h.mem_iff a
  have := hperm.length_eq
  simpa using this

theorem PoolInv.active_le {n : ℕ} {s : Pool} (h : PoolInv n s) :
    s.active.length ≤ n := by
  have := h.length_sum
  omega

/-- Decomposition of a list by its last element. -/
theorem getLast?_decomp {l : List ℕ} {o : ℕ} (hl : l.getLast? = some o) :
    l.dropLast ++ [o] = l :=
  List.dropLast_append_getLast? o hl

theorem mem_of_getLast? {l : List ℕ} {o : ℕ} (hl : l.getLast? = some o) :
    o ∈ l := by
  have := getLast?_decomp hl
  rw [← this]
  simp

/-- Moving the last inactive object to the back of the active list (the
`getActiveObject` success branch, with arbitrary display updates) preserves
the pool invariant. -/
theorem poolInv_move {n : ℕ} {s : Pool} {o : ℕ}
    (h : PoolInv n s) (hl : s.inactive.getLast? = some o) (d v : ℕ → Bool) :
    PoolInv n
      { active := s.active ++ [o], inactive := s.inactive.dropLast,
        flag := updMap s.flag o true, disp := d, vis := v } := by
  have hmemI : o ∈ s.inactive := mem_of_getLast? hl
  have hdec : s.inactive.dropLast ++ [o] = s.inactive := getLast?_decomp hl
  have hndI : (s.inactive.dropLast ++ [o]).Nodup := by rw [hdec]; exact h.nodupI
  obtain ⟨hndDrop, -, hdisjDrop⟩ := List.nodup_append.1 hndI
  have hoA : o ∉ s.active := fun hA => h.disj o hA hmemI
  have hoD : o ∉ s.inactive.dropLast := fun hD => hdisjDrop hD (by simp)
  have hsubD : ∀ i, i ∈ s.inactive.dropLast → i ∈ s.inactive := by
    intro i hi; rw [← hdec]; exact List.mem_append_left _ hi
  refine ⟨?_, hndDrop, ?_, ?_, ?_⟩
  · exact List.nodup_append.2 ⟨h.nodupA, List.nodup_singleton o,
      fun i hi hio => hoA ((by simpa using hio : i = o) ▸ hi)⟩
  · intro i hi
    rcases List.mem_append.1 hi with hiA | hio
    · exact fun hD => h.disj i hiA (hsubD i hD)
    · have : i = o := by simpa using hio
      exact this ▸ hoD
  · intro i
    rw [← h.mem_iff i]
    constructor
    · rintro (hi | hi)
      · rcases List.mem_append.1 hi with hiA | hio
        · exact Or.inl hiA
        · exact Or.inr ((by simpa using hio : i = o) ▸ hmemI)
      · exact Or.inr (hsubD i hi)
    · rintro (hi | hi)
      · exact Or.inl (List.mem_append_left _ hi)
      · by_cases hio : i = o
        · exact Or.inl (List.mem_append_right _ (by simp [hio]))
        · refine Or.inr ?_
          rw [← hdec] at hi
          rcases List.mem_append.1 hi with h1 | h1
          · exact h1
          · exact absurd (by simpa using h1) hio
  · intro i
    by_cases hio : i = o
    · subst hio
      simp [updMap]
    · simp only [updMap, if_neg hio]
      rw [h.flag_iff i]
      constructor
      · exact fun hi => List.mem_append_left _ hi
      · intro hi
        rcases List.mem_append.1 hi with h1 | h1
        · exact h1
        · exact absurd (by simpa using h1) hio

theorem poolInv_getActiveObject {n : ℕ} {s : Pool} (h : PoolInv n s) :
    PoolInv n (getActiveObject s).2 := by
  unfold getActiveObject
  cases hl : s.inactive.getLast? with
  | none => exact h
  | some o => exact poolInv_move h hl _ _

theorem poolInv_releaseObject {n : ℕ} {s : Pool} (h : PoolInv n s) (o : ℕ) :
    PoolInv n (releaseObject s o) := by
  unfold releaseObject
  cases hf : s.flag o with
  | false => simpa using h
  | true =>
    have hoA : o ∈ s.active := (h.flag_iff o).1 hf
    simp only [if_pos hoA, if_true]
    have hoI : o ∉ s.inactive := h.disj o hoA
    refine ⟨h.nodupA.erase o, ?_, ?_, ?_, ?_⟩
    · exact List.nodup_append.2 ⟨h.nodupI, List.nodup_singleton o,
        fun i hi hio => hoI ((by simpa using hio : i = o) ▸ hi)⟩
    · intro i hi
      rw [h.nodupA.mem_erase_iff] at hi
      intro hmem
      rcases List.mem_append.1 hmem with h1 | h1
      · exact h.disj i hi.2 h1
      · exact hi.1 (by simpa using h1)
    · intro i
      rw [← h.mem_iff i, h.nodupA.mem_erase_iff, List.mem_append]
      by_cases hio : i = o
      · subst hio
        simp [hoA]
      · simp [hio]
    · intro i
      by_cases hio : i = o
      · subst hio
        simp only [updMap, if_pos rfl]
        rw [h.nodupA.mem_erase_iff]
        simp
      · simp only [updMap, if_neg hio]
        rw [h.flag_iff i, h.nodupA.mem_erase_iff]
        simp [hio]

/-- Under the invariant, releasing a member of `activeElements` removes
exactly that member from the list. -/
theorem releaseObject_active_of_mem {n : ℕ} {s : Pool} {o : ℕ}
    (h : PoolInv n s) (hoA : o ∈ s.active) :
    (releaseObject s o).active = s.active.erase o := by
  have hf : s.flag o = true := (h.flag_iff o).2 hoA
  simp [releaseObject, hf, hoA]

set_option maxHeartbeats 800000

theorem releaseExcess_spec {n : ℕ} (t : ℕ) :
    ∀ k (s : Pool), s.active.length = k → PoolInv n s →
      PoolInv n (releaseExcess t s) ∧
        (releaseExcess t s).active.length = min t s.active.length := by
  intro k
  induction k using Nat.strong_induction_on with
  | _ k IH =>
    intro s hk h
    rw [releaseExcess]
    by_cases ht : t < s.active.length
    · simp only [dif_pos ht]
      cases hl : s.active.getLast? with
      | none =>
        rw [List.getLast?_eq_none_iff] at hl
        rw [hl] at ht
        simp at ht
      | some o =>
        have hoA : o ∈ s.active := mem_of_getLast? hl
        have hact : (releaseObject s o).active = s.active.erase o :=
          releaseObject_active_of_mem h hoA
        have hlen : (releaseObject s o).active.length = s.active.length - 1 := by
          rw [hact, List.length_erase_of_mem hoA]
        have hlt : (releaseObject s o).active.length < s.active.length := by
          omega
        simp only [dif_pos hlt]
        have h' : PoolInv n (releaseObject s o) := poolInv_releaseObject h o
        have := IH (releaseObject s o).active.length (by omega)
          (releaseObject s o) rfl h'
        refine ⟨this.1, ?_⟩
        rw [this.2, hlen]
        omega
    · simp only [dif_neg ht]
      exact ⟨h, by omega⟩

theorem acquireNeeded_spec {n : ℕ} (t m : ℕ) :
    ∀ k (s : Pool), s.inactive.length = k → PoolInv n s →
      PoolInv n (acquireNeeded t m s) ∧
        (acquireNeeded t m s).active.length =
          max s.active.length (min (min t m) n) := by
  intro k
  induction k using Nat.strong_induction_on with
  | _ k IH =>
    intro s hk h
    rw [acquireNeeded]
    by_cases hlt : s.active.length < min t m
    · simp only [dif_pos hlt]
      cases hl : s.inactive.getLast? with
      | none =>
        dsimp only
        rw [List.getLast?_eq_none_iff] at hl
        have hsum := h.length_sum
        rw [hl] at hsum
        simp at hsum
        refine ⟨h, ?_⟩
        have : min (min t m) n ≤ n := min_le_right _ _
        omega
      | some o =>
        dsimp only
        set s' : Pool :=
          { active := s.active ++ [o], inactive := s.inactive.dropLast,
            flag := updMap s.flag o true, disp := updMap s.disp o true,
            vis := updMap s.vis o true } with hs'
        have h' : PoolInv n s' := poolInv_move h hl _ _
        have hIne : s.inactive ≠ [] := by
          intro hmt
          rw [hmt] at hl
          simp at hl
        have hIlen : 0 < s.inactive.length := List.length_pos.2 hIne
        have hdlen : s'.inactive.length = s.inactive.length - 1 := by
          rw [hs']
          simp [List.length_dropLast]
        have halen : s'.active.length = s.active.length + 1 := by
          rw [hs']
          simp
        have := IH s'.inactive.length (by omega) s' rfl h'
        refine ⟨this.1, ?_⟩
        rw [this.2, halen]
        have hsum := h.length_sum
        have hactn : s.active.length + 1 ≤ n := by omega
        have h1 : s.active.length + 1 ≤ min (min t m) n := by
          have := le_min (Nat.succ_le_of_lt hlt) hactn
          omega
        omega
    · simp only [dif_neg hlt]
      refine ⟨h, ?_⟩
      have h2 : min (min t m) n ≤ min t m := min_le_left _ _
      omega

theorem updateDisplayMetrics_spec {n : ℕ} (t m : ℕ) (s : Pool)
    (h : PoolInv n s) :
    PoolInv n (updateDisplayMetrics t m s) ∧
      (updateDisplayMetrics t m s).active.length =
        max (min t s.active.length) (min (min t m) n) := by
  obtain ⟨h1, e1⟩ := releaseExcess_spec (n := n) t s.active.length s rfl h
  obtain ⟨h2, e2⟩ :=
    acquireNeeded_spec (n := n) t m (releaseExcess t s).inactive.length
      (releaseExcess t s) rfl h1
  exact ⟨h2, by rw [updateDisplayMetrics, e2, e1]⟩

/-! ## Interleaved pool operation sequences (for the partition invariant) -/

/-- One externally triggered pool operation: an `getActiveObject()` call, a
`releaseObject(obj)` call, or an `updateDisplayMetrics()` reconciliation
with the given `textCount` target and available-metric count. -/
inductive PoolOp where
  | acquire : PoolOp
  | release : ℕ → PoolOp
  | reconcile : ℕ → ℕ → PoolOp

def applyOp (s : Pool) : PoolOp → Pool
  | PoolOp.acquire => (getActiveObject s).2
  | PoolOp.release o => releaseObject s o
  | PoolOp.reconcile t m => updateDisplayMetrics t m s

def applyOps (s : Pool) (ops : List PoolOp) : Pool :=
  ops.foldl applyOp s

theorem poolInv_applyOps {n : ℕ} (ops : List PoolOp) :
    ∀ (s : Pool), PoolInv n s → PoolInv n (applyOps s ops) := by
  induction ops with
  | nil => exact fun s h => h
  | cons op rest IH =>
    intro s h
    refine IH (applyOp s op) ?_
    cases op with
    | acquire => exact poolInv_getActiveObject h
    | release o => exact poolInv_releaseObject h o
    | reconcile t m => exact (updateDisplayMetrics_spec t m s h).1

/-! ## The per-frame critical update (`updateCritical`)

`updateCritical` iterates over `activeElements`.  For each member the
projected position `worldPosition = mesh.position.project(camera)` is
camera math external to this subsystem, so its result `(x, y, z)` enters
the model as an input; likewise `Math.sin(userData.life * Math.PI)` enters
as the input `sLife`.  The member's visual state carries
`userData.isVisible`, `element.style.display === 'block'`, the last written
`element.style.opacity`, the last written 2D transform, and the element
content (untouched by this function). -/

structure VisState where
  isVisible : Bool
  display : Bool
  opacity : ℚ
  transformX : ℚ
  transformY : ℚ
  content : ℕ
deriving DecidableEq

/-- `settings.cullingEnabled` (set to `true` in the constructor). -/
def cullingEnabled : Bool := true

/-- Clamp of `z` into `[lo, hi]` (used only to state the spec's alpha
formula; the source has no such clamp). -/
def clampQ (x lo hi : ℚ) : ℚ := max lo (min hi x)

/-- The body of the `updateCritical` loop for one active member, given the
life-cycle factor `sLife = Math.sin(userData.life * Math.PI)`, the projected
normalized position `(x, y, z)`, and the viewport size `w × h`:
frustum culling on `z`, screen mapping, and the visibility/alpha update. -/
def updateCriticalMember (sLife x y z w h : ℚ) (st : VisState) : VisState :=
  if cullingEnabled ∧ (z > 1 ∨ z < -1) then
    if st.isVisible then { st with display := false, isVisible := false }
    else st
  else
    let screenX := (x * 0.5 + 0.5) * w
    let screenY := (-y * 0.5 + 0.5) * h
    let st1 := { st with transformX := screenX, transformY := screenY }
    let lifeAlpha := sLife
    let distanceAlpha := if z > 1 then 0 else 1 - z
    let finalAlpha := lifeAlpha * distanceAlpha * 0.9
    let st2 :=
      if finalAlpha > 0.1 ∧ ¬st1.isVisible then
        { st1 with display := true, isVisible := true }
      else if finalAlpha ≤ 0.1 ∧ st1.isVisible then
        { st1 with display := false, isVisible := false }
      else st1
    if st2.isVisible then { st2 with opacity := finalAlpha } else st2

/-- `updateCritical` maps the member update over `activeElements` (indexed
`forEach`; the per-index data `sL i` and `pos i` abstract the life factor
and projected position of member `i`).  Membership in `activeElements` is
not touched. -/
def updateCriticalList (sL : ℕ → ℚ) (pos : ℕ → ℚ × ℚ × ℚ) (w h : ℚ) :
    ℕ → List VisState → List VisState
  | _, [] => []
  | i, st :: tl =>
      updateCriticalMember (sL i) (pos i).1 (pos i).2.1 (pos i).2.2 w h st ::
        updateCriticalList sL pos w h (i + 1) tl

/-- `updateNonCritical` advances `userData.life` by `0.005` per frame,
resetting to `0` once it passes `1`. -/
def updateNonCriticalLife (life : ℚ) : ℚ :=
  let life1 := life + 0.005
  if life1 > 1 then 0 else life1

/-- The alpha formula exactly as the spec words it:
`sin(lifePhase·π) · (1 − clamp(z,0,1)) · 0.9`. -/
def specVisibilityAlpha (sLife z : ℚ) : ℚ :=
  sLife * (1 - clampQ z 0 1) * 0.9

/-! ## The fleet simulation (`FleetTelematicsData`) -/

/-- Abstract stand-ins for `Math.sin`, `Math.cos` and `Math.PI`; the source
uses them only for the flat-earth lat/lng displacement, and no claim
depends on their values. -/
structure Trig where
  sin : ℚ → ℚ
  cos : ℚ → ℚ
  pi : ℚ

/-- `this.updateInterval = 1000` (milliseconds). -/
def updateInterval : ℚ := 1000

structure Location where
  lat : ℚ
  lng : ℚ
  speed : ℚ
  heading : ℚ
  altitude : ℚ
deriving DecidableEq

/-- `lastFill` (a wall-clock timestamp) is not modelled. -/
structure FuelData where
  level : ℚ
  capacity : ℚ
  efficiency : ℚ
  consumption : ℚ
deriving DecidableEq

structure EngineData where
  rpm : ℚ
  temperature : ℚ
  oilPressure : ℚ
  voltage : ℚ
  faultCodes : List String
  hours : ℕ
deriving DecidableEq

structure DriverData where
  id : String
  score : ℚ
  harshAcceleration : ℕ
  harshBraking : ℕ
  harshCornering : ℕ
  idleTime : ℚ
  drivingTime : ℚ
deriving DecidableEq

/-- `lastUpdate` (a wall-clock timestamp) is not modelled. -/
structure VehicleStatus where
  state : String
  route : String
  nextMaintenance : ℚ
  connected : Bool
deriving DecidableEq

structure Vehicle where
  id : String
  type : String
  location : Location
  fuel : FuelData
  engine : EngineData
  driver : DriverData
  status : VehicleStatus
deriving DecidableEq

/-- One `vehicleTypes` catalog entry. -/
structure VehicleType where
  type : String
  fuel : ℚ
  efficiency : ℚ

def vehicleTypes : List VehicleType :=
  [⟨"Truck", 200, 8.5⟩, ⟨"Van", 80, 12.0⟩, ⟨"Car", 60, 15.0⟩,
   ⟨"Bus", 300, 6.0⟩]

def routes : List String :=
  ["Highway 401 E", "Downtown Core", "Industrial Zone", "Airport Route",
   "Suburban Loop"]

/-- `String(n).padStart(3, '0')`. -/
def pad3 (n : ℕ) : String :=
  let s := toString n
  if s.length < 3 then String.mk (List.replicate (3 - s.length) '0') ++ s
  else s

/-- The `Math.random()` draws consumed when `initializeFleet` creates one
vehicle, in source order. -/
structure InitR where
  rLat : ℚ
  rLng : ℚ
  rSpeed : ℚ
  rHeading : ℚ
  rAltitude : ℚ
  rFuelLevel : ℚ
  rRpm : ℚ
  rTemperature : ℚ
  rOilPressure : ℚ
  rVoltage : ℚ
  rHours : ℚ
  rDriverId : ℚ
  rScore : ℚ
  rHarshAccel : ℚ
  rHarshBrake : ℚ
  rHarshCorner : ℚ
  rIdleTime : ℚ
  rDrivingTime : ℚ
  rState : ℚ
  rMaintenance : ℚ
  rConnected : ℚ

def InitR.Valid (r : InitR) : Prop :=
  InUnit r.rLat ∧ InUnit r.rLng ∧ InUnit r.rSpeed ∧ InUnit r.rHeading ∧
  InUnit r.rAltitude ∧ InUnit r.rFuelLevel ∧ InUnit r.rRpm ∧
  InUnit r.rTemperature ∧ InUnit r.rOilPressure ∧ InUnit r.rVoltage ∧
  InUnit r.rHours ∧ InUnit r.rDriverId ∧ InUnit r.rScore ∧
  InUnit r.rHarshAccel ∧ InUnit r.rHarshBrake ∧ InUnit r.rHarshCorner ∧
  InUnit r.rIdleTime ∧ InUnit r.rDrivingTime ∧ InUnit r.rState ∧
  InUnit r.rMaintenance ∧ InUnit r.rConnected

instance (r : InitR) : Decidable r.Valid := by
  unfold InitR.Valid; infer_instance

/-- The vehicle `initializeFleet` creates at loop index `i`. -/
def initVehicle (i : ℕ) (r : InitR) : Vehicle :=
  let vt := vehicleTypes.getD (i % vehicleTypes.length) ⟨"", 0, 0⟩
  let route := routes.getD (i % routes.length) ""
  { id := "VH-" ++ pad3 (i + 1)
    type := vt.type
    location :=
      { lat := 43.6532 + (r.rLat - 0.5) * 0.1
        lng := -79.3832 + (r.rLng - 0.5) * 0.1
        speed := r.rSpeed * 80 + 20
        heading := r.rHeading * 360
        altitude := 76 + r.rAltitude * 50 }
    fuel :=
      { level := vt.fuel * (0.3 + r.rFuelLevel * 0.6)
        capacity := vt.fuel
        efficiency := vt.efficiency
        consumption := 0 }
    engine :=
      { rpm := 1500 + r.rRpm * 2000
        temperature := 85 + r.rTemperature * 15
        oilPressure := 30 + r.rOilPressure * 20
        voltage := 12.5 + r.rVoltage * 1.5
        faultCodes := []
        hours := natFloor (r.rHours * 5000) + 1000 }
    driver :=
      { id := "DR-" ++ pad3 (natFloor (r.rDriverId * 100) + 1)
        score := 75 + r.rScore * 20
        harshAcceleration := natFloor (r.rHarshAccel * 5)
        harshBraking := natFloor (r.rHarshBrake * 3)
        harshCornering := natFloor (r.rHarshCorner * 2)
        idleTime := (natFloor (r.rIdleTime * 120) : ℚ)
        drivingTime := ((natFloor (r.rDrivingTime * 480) + 60 : ℕ) : ℚ) }
    status :=
      { state := if r.rState > 0.8 then "idle" else "driving"
        route := route
        nextMaintenance := ((natFloor (r.rMaintenance * 5000) + 500 : ℕ) : ℚ)
        connected := decide (r.rConnected > 0.05) } }

/-- `initializeFleet()` creates 12 vehicles, keyed and iterated in creation
order. -/
def initializeFleet (ir : ℕ → InitR) : List Vehicle :=
  (List.range 12).map (fun i => initVehicle i (ir i))

/-- The `Math.random()` draws consumed when one vehicle is updated by one
simulation tick, in source order (draws in branches not taken are simply
unused). -/
structure TickR where
  rSpeedDelta : ℚ
  rHeadingChance : ℚ
  rHeadingDelta : ℚ
  rRpm : ℚ
  rTempDrift : ℚ
  rOilDrift : ℚ
  rVoltage : ℚ
  rFaultChance : ℚ
  rFaultPick : ℚ
  rEventChance : ℚ
  rEventType : ℚ
  rStateToggle : ℚ
  rConnToggle : ℚ

def TickR.Valid (r : TickR) : Prop :=
  InUnit r.rSpeedDelta ∧ InUnit r.rHeadingChance ∧ InUnit r.rHeadingDelta ∧
  InUnit r.rRpm ∧ InUnit r.rTempDrift ∧ InUnit r.rOilDrift ∧
  InUnit r.rVoltage ∧ InUnit r.rFaultChance ∧ InUnit r.rFaultPick ∧
  InUnit r.rEventChance ∧ InUnit r.rEventType ∧ InUnit r.rStateToggle ∧
  InUnit r.rConnToggle

instance (r : TickR) : Decidable r.Valid := by
  unfold TickR.Valid; infer_instance

/-- `updateVehicleLocation(vehicle)`: when driving, integrate `lat`/`lng`
from the current speed and heading, then vary the speed by `±2.5` clamped
to `[10, 100]`, then with 10% probability turn by `±15°` (wrapped into
`[0, 360)`). -/
def updateVehicleLocation (tg : Trig) (r : TickR) (v : Vehicle) : Vehicle :=
  if v.status.state = "driving" then
    let speedKmh := v.location.speed
    let speedMs := speedKmh / 3.6
    let deltaTime := updateInterval / 1000
    let distance := speedMs * deltaTime
    let latDelta := distance / 111000 * tg.cos (v.location.heading * tg.pi / 180)
    let lngDelta := distance / 111000 * tg.sin (v.location.heading * tg.pi / 180)
    let lat1 := v.location.lat + latDelta
    let lng1 := v.location.lng + lngDelta
    let speed1 := v.location.speed + (r.rSpeedDelta - 0.5) * 5
    let speed2 := max 10 (min 100 speed1)
    let heading1 :=
      if r.rHeadingChance < 0.1 then
        fmod (v.location.heading + (r.rHeadingDelta - 0.5) * 30 + 360) 360
      else v.location.heading
    { v with location :=
        { v.location with
          lat := lat1
          lng := lng1
          speed := speed2
          heading := heading1 } }
  else v

/-- `updateFuelData(vehicle)`: when driving, consume
`speed / efficiency / 3600` L/s over the tick interval with the level
floored at 0 and report the consumption in L/h; otherwise report zero
consumption. -/
def updateFuelData (v : Vehicle) : Vehicle :=
  if v.status.state = "driving" then
    let consumption := v.location.speed / v.fuel.efficiency / 3600
    let deltaTime := updateInterval / 1000
    let fuelUsed := consumption * deltaTime
    { v with fuel :=
        { v.fuel with
          level := max 0 (v.fuel.level - fuelUsed)
          consumption := consumption * 3600 } }
  else
    { v with fuel := { v.fuel with consumption := 0 } }

def faultCatalog : List String := ["P0171", "P0300", "P0420", "P0128", "P0442"]

/-- `updateEngineData(vehicle)`: rpm/temperature/oilPressure by run state,
voltage jitter clamped to `[12.0, 14.5]`, and with probability `0.001` a
fault code drawn from the catalog is appended when not already present and
under the 3-code cap. -/
def updateEngineData (r : TickR) (v : Vehicle) : Vehicle :=
  let v1 :=
    if v.status.state = "driving" then
      let baseRpm := 800 + v.location.speed / 100 * 2500
      { v with engine :=
          { v.engine with
            rpm := baseRpm + (r.rRpm - 0.5) * 200,
            temperature :=
              max 80 (min 105 (v.engine.temperature + (r.rTempDrift - 0.5) * 2)),
            oilPressure :=
              max 25 (min 55 (v.engine.oilPressure + (r.rOilDrift - 0.5) * 2)) } }
    else
      { v with engine :=
          { v.engine with
            rpm := 800 + (r.rRpm - 0.5) * 100,
            temperature := max 85 (v.engine.temperature - 0.5) } }
  let v2 :=
    { v1 with engine :=
        { v1.engine with
          voltage := max 12.0 (min 14.5 (v1.engine.voltage + (r.rVoltage - 0.5) * 0.1)) } }
  if r.rFaultChance < 0.001 ∧ v2.engine.faultCodes.length < 3 then
    let newFault := faultCatalog.getD (natFloor (r.rFaultPick * 5)) ""
    if newFault ∈ v2.engine.faultCodes then v2
    else
      { v2 with engine :=
          { v2.engine with faultCodes := v2.engine.faultCodes ++ [newFault] } }
  else v2

/-- `updateDriverBehavior(vehicle)`: while driving, with 1% probability
record one harsh event (40% acceleration / 30% braking / 30% cornering) and
accumulate driving minutes, otherwise accumulate idle minutes; then
recompute `score = max(50, 100 - eventsPerHour * 10)`. -/
def updateDriverBehavior (r : TickR) (v : Vehicle) : Vehicle :=
  let v1 :=
    if v.status.state = "driving" then
      let v0 :=
        if r.rEventChance < 0.01 then
          if r.rEventType < 0.4 then
            { v with driver :=
                { v.driver with harshAcceleration := v.driver.harshAcceleration + 1 } }
          else if r.rEventType < 0.7 then
            { v with driver :=
                { v.driver with harshBraking := v.driver.harshBraking + 1 } }
          else
            { v with driver :=
                { v.driver with harshCornering := v.driver.harshCornering + 1 } }
        else v
      { v0 with driver :=
          { v0.driver with drivingTime := v0.driver.drivingTime + updateInterval / 60000 } }
    else
      { v with driver :=
          { v.driver with idleTime := v.driver.idleTime + updateInterval / 60000 } }
  let events : ℚ :=
    (v1.driver.harshAcceleration : ℚ) + (v1.driver.harshBraking : ℚ) +
      (v1.driver.harshCornering : ℚ)
  let hours := v1.driver.drivingTime / 60
  let eventsPerHour := if hours > 0 then events / hours else 0
  { v1 with driver := { v1.driver with score := max 50 (100 - eventsPerHour * 10) } }

/-- `updateVehicleStatus(vehicle)`: 1% state toggle, 0.1% connectivity
toggle, and while driving count down `nextMaintenance` (floored at 0). -/
def updateVehicleStatus (r : TickR) (v : Vehicle) : Vehicle :=
  let v1 :=
    if r.rStateToggle < 0.01 then
      { v with status :=
          { v.status with
            state := if v.status.state = "driving" then "idle" else "driving" } }
    else v
  let v2 :=
    if r.rConnToggle < 0.001 then
      { v1 with status := { v1.status with connected := !v1.status.connected } }
    else v1
  if v2.status.state = "driving" then
    { v2 with status :=
        { v2.status with
          nextMaintenance :=
            max 0 (v2.status.nextMaintenance -
              v2.location.speed * (updateInterval / 3600000)) } }
  else v2

/-- `updateVehicleData()` restricted to one vehicle: the five per-vehicle
updates in source order (`lastUpdate`, a wall-clock timestamp, is not
modelled). -/
def tickVehicle (tg : Trig) (r : TickR) (v : Vehicle) : Vehicle :=
  updateVehicleStatus r
    (updateDriverBehavior r
      (updateEngineData r
        (updateFuelData
          (updateVehicleLocation tg r v))))

/-- One `updateVehicleData()` pass over the fleet (`vehicles.forEach` in
insertion order; vehicle `i` consumes the draw bundle `rs i`). -/
def tickFleetAux (tg : Trig) (rs : ℕ → TickR) : ℕ → List Vehicle → List Vehicle
  | _, [] => []
  | i, v :: tl => tickVehicle tg (rs i) v :: tickFleetAux tg rs (i + 1) tl

def tickFleet (tg : Trig) (rs : ℕ → TickR) (vs : List Vehicle) : List Vehicle :=
  tickFleetAux tg rs 0 vs

/-- A run of the simulation: apply the ticks in order. -/
def runTicks (tg : Trig) : List (ℕ → TickR) → List Vehicle → List Vehicle
  | [], vs => vs
  | r :: rest, vs => runTicks tg rest (tickFleet tg r vs)

/-! ## The metric projector (`getFleetSummary`, `getDisplayMetrics`)

A `Metric` is modelled by its `type`, `vehicleId`, `status` and `priority`
string fields.  The `label`, `value` and `detail` fields are display
strings built with `toFixed` float formatting and are not modelled; no
claim refers to them. -/

structure Metric where
  type : String
  vehicleId : String
  status : String
  priority : String
deriving DecidableEq

structure FleetSummary where
  total : ℕ
  active : ℕ
  idle : ℕ
  connected : ℕ
  avgSpeed : ℚ
  totalFuel : ℚ
  avgDriverScore : ℚ
  maintenanceAlerts : ℕ
  faultCodes : ℕ
deriving DecidableEq

/-- `getFleetSummary()`.  (The fleet is always nonempty in the program, so
the `avgDriverScore` division is never by zero; `ℚ` division by zero would
yield 0 where JavaScript yields NaN.) -/
def getFleetSummary (vehicles : List Vehicle) : FleetSummary :=
  let activeVehicles := vehicles.filter (fun v => v.status.state == "driving")
  let connectedVehicles := vehicles.filter (fun v => v.status.connected)
  { total := vehicles.length
    active := activeVehicles.length
    idle := vehicles.length - activeVehicles.length
    connected := connectedVehicles.length
    avgSpeed :=
      if 0 < activeVehicles.length then
        ((activeVehicles.map (fun v => v.location.speed)).sum) /
          (activeVehicles.length : ℚ)
      else 0
    totalFuel := (vehicles.map (fun v => v.fuel.level)).sum
    avgDriverScore :=
      ((vehicles.map (fun v => v.driver.score)).sum) / (vehicles.length : ℚ)
    maintenanceAlerts :=
      (vehicles.filter (fun v => decide (v.status.nextMaintenance < 500))).length
    faultCodes := (vehicles.map (fun v => v.engine.faultCodes.length)).sum }

/-- The fuel percentage `vehicle.fuel.level / vehicle.fuel.capacity * 100`. -/
def fuelPercent (v : Vehicle) : ℚ := v.fuel.level / v.fuel.capacity * 100

/-- The per-vehicle `location` metric (its `status` field carries the raw
run state string). -/
def locationMetric (v : Vehicle) : Metric :=
  { type := "location"
    vehicleId := v.id
    status := v.status.state
    priority := if v.status.state = "driving" then "high" else "normal" }

def fuelMetric (v : Vehicle) : Metric :=
  { type := "fuel"
    vehicleId := v.id
    status :=
      if fuelPercent v < 20 then "critical"
      else if fuelPercent v < 40 then "warning"
      else "normal"
    priority := if fuelPercent v < 20 then "critical" else "normal" }

def engineMetric (v : Vehicle) : Metric :=
  { type := "engine"
    vehicleId := v.id
    status := if v.engine.temperature > 100 then "warning" else "normal"
    priority := if 0 < v.engine.faultCodes.length then "high" else "normal" }

def driverMetric (v : Vehicle) : Metric :=
  { type := "driver"
    vehicleId := v.id
    status := if v.driver.score < 70 then "warning" else "normal"
    priority := if v.driver.score < 60 then "high" else "normal" }

/-- The four metrics `getDisplayMetrics` pushes for one vehicle, in source
order. -/
def vehicleMetrics (v : Vehicle) : List Metric :=
  [locationMetric v, fuelMetric v, engineMetric v, driverMetric v]

/-- The trailing fleet summary metric. -/
def fleetMetric (vehicles : List Vehicle) : Metric :=
  let summary := getFleetSummary vehicles
  { type := "fleet"
    vehicleId := "FLEET"
    status :=
      if (summary.connected : ℚ) < (summary.total : ℚ) * 0.9 then "warning"
      else "normal"
    priority := "high" }

/-- `getDisplayMetrics()`: for each vehicle, in fleet order, the four
per-vehicle metrics; then exactly one fleet summary metric. -/
def getDisplayMetrics (vehicles : List Vehicle) : List Metric :=
  (vehicles.flatMap vehicleMetrics) ++ [fleetMetric vehicles]

theorem getDisplayMetrics_length (vs : List Vehicle) :
    (getDisplayMetrics vs).length = 4 * vs.length + 1 := by
  induction vs with
  | nil => simp [getDisplayMetrics]
  | cons v tl IH =>
    simp only [getDisplayMetrics, List.flatMap_cons, List.length_append,
      List.length_cons, List.length_flatMap] at IH ⊢
    simp [vehicleMetrics] at IH ⊢
    omega

/-! ## Frame-by-frame facts about the per-vehicle updates -/

theorem updateEngineData_fuel (r : TickR) (v : Vehicle) :
    (updateEngineData r v).fuel = v.fuel := by
  unfold updateEngineData
  dsimp only
  split_ifs <;> rfl

theorem updateEngineData_location (r : TickR) (v : Vehicle) :
    (updateEngineData r v).location = v.location := by
  unfold updateEngineData
  dsimp only
  split_ifs <;> rfl

theorem updateEngineData_driver (r : TickR) (v : Vehicle) :
    (updateEngineData r v).driver = v.driver := by
  unfold updateEngineData
  dsimp only
  split_ifs <;> rfl

theorem updateEngineData_status (r : TickR) (v : Vehicle) :
    (updateEngineData r v).status = v.status := by
  unfold updateEngineData
  dsimp only
  split_ifs <;> rfl

theorem updateDriverBehavior_fuel (r : TickR) (v : Vehicle) :
    (updateDriverBehavior r v).fuel = v.fuel := by
  unfold updateDriverBehavior
  dsimp only
  split_ifs <;> rfl

theorem updateDriverBehavior_location (r : TickR) (v : Vehicle) :
    (updateDriverBehavior r v).location = v.location := by
  unfold updateDriverBehavior
  dsimp only
  split_ifs <;> rfl

theorem updateDriverBehavior_engine (r : TickR) (v : Vehicle) :
    (updateDriverBehavior r v).engine = v.engine := by
  unfold updateDriverBehavior
  dsimp only
  split_ifs <;> rfl

theorem updateDriverBehavior_status (r : TickR) (v : Vehicle) :
    (updateDriverBehavior r v).status = v.status := by
  unfold updateDriverBehavior
  dsimp only
  split_ifs <;> rfl

theorem updateVehicleStatus_fuel (r : TickR) (v : Vehicle) :
    (updateVehicleStatus r v).fuel = v.fuel := by
  unfold updateVehicleStatus
  dsimp only
  split_ifs <;> rfl

theorem updateVehicleStatus_location (r : TickR) (v : Vehicle) :
    (updateVehicleStatus r v).location = v.location := by
  unfold updateVehicleStatus
  dsimp only
  split_ifs <;> rfl

theorem updateVehicleStatus_engine (r : TickR) (v : Vehicle) :
    (updateVehicleStatus r v).engine = v.engine := by
  unfold updateVehicleStatus
  dsimp only
  split_ifs <;> rfl

theorem updateVehicleStatus_driver (r : TickR) (v : Vehicle) :
    (updateVehicleStatus r v).driver = v.driver := by
  unfold updateVehicleStatus
  dsimp only
  split_ifs <;> rfl

theorem updateVehicleLocation_fuel (tg : Trig) (r : TickR) (v : Vehicle) :
    (updateVehicleLocation tg r v).fuel = v.fuel := by
  unfold updateVehicleLocation
  dsimp only
  split_ifs <;> rfl

theorem updateVehicleLocation_engine (tg : Trig) (r : TickR) (v : Vehicle) :
    (updateVehicleLocation tg r v).engine = v.engine := by
  unfold updateVehicleLocation
  dsimp only
  split_ifs <;> rfl

theorem updateVehicleLocation_driver (tg : Trig) (r : TickR) (v : Vehicle) :
    (updateVehicleLocation tg r v).driver = v.driver := by
  unfold updateVehicleLocation
  dsimp only
  split_ifs <;> rfl

theorem updateVehicleLocation_status (tg : Trig) (r : TickR) (v : Vehicle) :
    (updateVehicleLocation tg r v).status = v.status := by
  unfold updateVehicleLocation
  dsimp only
  split_ifs <;> rfl

theorem updateFuelData_location (v : Vehicle) :
    (updateFuelData v).location = v.location := by
  unfold updateFuelData
  dsimp only
  split_ifs <;> rfl

theorem updateFuelData_engine (v : Vehicle) :
    (updateFuelData v).engine = v.engine := by
  unfold updateFuelData
  dsimp only
  split_ifs <;> rfl

theorem updateFuelData_driver (v : Vehicle) :
    (updateFuelData v).driver = v.driver := by
  unfold updateFuelData
  dsimp only
  split_ifs <;> rfl

theorem updateFuelData_status (v : Vehicle) :
    (updateFuelData v).status = v.status := by
  unfold updateFuelData
  dsimp only
  split_ifs <;> rfl

/-- An idle vehicle is left untouched by `updateVehicleLocation`. -/
theorem updateVehicleLocation_idle (tg : Trig) (r : TickR) (v : Vehicle)
    (h : v.status.state = "idle") : updateVehicleLocation tg r v = v := by
  unfold updateVehicleLocation
  rw [h]
  simp

/-- An idle vehicle keeps its fuel level and reports zero consumption. -/
theorem updateFuelData_idle (v : Vehicle) (h : v.status.state = "idle") :
    (updateFuelData v).fuel.level = v.fuel.level ∧
      (updateFuelData v).fuel.consumption = 0 := by
  unfold updateFuelData
  rw [h]
  simp

/-! ## The fuel-level and driver-score invariant (claim C7) -/

/-- The inductive invariant carried through the simulation: the claimed
bounds on `fuel.level` and `driver.score` together with the auxiliary
facts (nonnegative speed, positive efficiency, nonnegative driving time)
needed to push them through one tick. -/
def GoodV (v : Vehicle) : Prop :=
  0 ≤ v.fuel.level ∧ v.fuel.level ≤ v.fuel.capacity ∧
  0 ≤ v.location.speed ∧ 0 < v.fuel.efficiency ∧
  0 ≤ v.driver.drivingTime ∧ 50 ≤ v.driver.score ∧ v.driver.score ≤ 100

theorem vehicleTypes_getD_pos (i : ℕ) :
    0 < (vehicleTypes.getD (i % vehicleTypes.length) ⟨"", 0, 0⟩).fuel ∧
      0 < (vehicleTypes.getD (i % vehicleTypes.length) ⟨"", 0, 0⟩).efficiency := by
  have hlen : vehicleTypes.length = 4 := by simp [vehicleTypes]
  rw [hlen]
  have h4 : i % 4 < 4 := Nat.mod_lt i (by norm_num)
  set k := i % 4 with hk
  interval_cases k <;> norm_num [vehicleTypes]

theorem goodV_initVehicle (i : ℕ) (r : InitR) (hr : r.Valid) :
    GoodV (initVehicle i r) := by
  obtain ⟨-, -, ⟨hs0, hs1⟩, -, -, ⟨hf0, hf1⟩, -, -, -, -, -, -,
    ⟨hsc0, hsc1⟩, -, -, -, -, -, -, -, -⟩ := hr
  obtain ⟨hcap, heff⟩ := vehicleTypes_getD_pos i
  refine ⟨?_, ?_, ?_, ?_, ?_, ?_, ?_⟩ <;>
    simp only [initVehicle]
  · nlinarith
  · nlinarith
  · nlinarith
  · exact heff
  · positivity
  · nlinarith
  · nlinarith

theorem goodV_updateVehicleLocation (tg : Trig) (r : TickR) (v : Vehicle)
    (h : GoodV v) : GoodV (updateVehicleLocation tg r v) := by
  obtain ⟨h1, h2, h3, h4, h5, h6, h7⟩ := h
  unfold updateVehicleLocation
  dsimp only
  split_ifs with hd hh
  · exact ⟨h1, h2, by simp only; positivity, h4, h5, h6, h7⟩
  · exact ⟨h1, h2, by simp only; positivity, h4, h5, h6, h7⟩
  · exact ⟨h1, h2, h3, h4, h5, h6, h7⟩

theorem goodV_updateFuelData (v : Vehicle) (h : GoodV v) :
    GoodV (updateFuelData v) := by
  obtain ⟨h1, h2, h3, h4, h5, h6, h7⟩ := h
  unfold updateFuelData
  dsimp only
  split_ifs with hd
  · refine ⟨le_max_left _ _, ?_, h3, h4, h5, h6, h7⟩
    have hused : 0 ≤ v.location.speed / v.fuel.efficiency / 3600 *
        (updateInterval / 1000) := by
      rw [updateInterval]
      positivity
    have hcap : (0:ℚ) ≤ v.fuel.capacity := le_trans h1 h2
    simp only
    rw [max_le_iff]
    constructor
    · exact hcap
    · linarith
  · exact ⟨h1, h2, h3, h4, h5, h6, h7⟩

theorem goodV_updateEngineData (r : TickR) (v : Vehicle) (h : GoodV v) :
    GoodV (updateEngineData r v) := by
  obtain ⟨h1, h2, h3, h4, h5, h6, h7⟩ := h
  refine ⟨?_, ?_, ?_, ?_, ?_, ?_, ?_⟩ <;>
    simp only [updateEngineData_fuel, updateEngineData_location,
      updateEngineData_driver] <;>
    first
      | exact h1 | exact h2 | exact h3 | exact h4 | exact h5
      | exact h6 | exact h7

theorem score_max_le (x : ℚ) (hx : 0 ≤ x) : max 50 (100 - x * 10) ≤ 100 := by
  apply max_le <;> nlinarith

theorem eph_nonneg (a b c : ℕ) (hrs : ℚ) :
    0 ≤ (if hrs > 0 then ((a:ℚ) + (b:ℚ) + (c:ℚ)) / hrs else 0) := by
  split_ifs with h
  · exact div_nonneg (by positivity) (le_of_lt h)
  · exact le_refl 0

theorem goodV_updateDriverBehavior (r : TickR) (v : Vehicle) (h : GoodV v) :
    GoodV (updateDriverBehavior r v) := by
  obtain ⟨h1, h2, h3, h4, h5, h6, h7⟩ := h
  have hI : (0:ℚ) ≤ updateInterval / 60000 := by
    rw [updateInterval]
    norm_num
  unfold updateDriverBehavior
  dsimp only
  split_ifs with hd he ht1 ht2 <;>
    refine ⟨h1, h2, h3, h4, ?_, le_max_left _ _, ?_⟩ <;>
    dsimp only
  all_goals
    first
      | linarith
      | exact score_max_le _ (div_nonneg (by positivity) (by linarith))
      | exact score_max_le 0 (le_refl 0)

theorem goodV_updateVehicleStatus (r : TickR) (v : Vehicle) (h : GoodV v) :
    GoodV (updateVehicleStatus r v) := by
  obtain ⟨h1, h2, h3, h4, h5, h6, h7⟩ := h
  refine ⟨?_, ?_, ?_, ?_, ?_, ?_, ?_⟩ <;>
    simp only [updateVehicleStatus_fuel, updateVehicleStatus_location,
      updateVehicleStatus_driver] <;>
    first
      | exact h1 | exact h2 | exact h3 | exact h4 | exact h5
      | exact h6 | exact h7

theorem goodV_tickVehicle (tg : Trig) (r : TickR) (v : Vehicle) (h : GoodV v) :
    GoodV (tickVehicle tg r v) :=
  goodV_updateVehicleStatus r _
    (goodV_updateDriverBehavior r _
      (goodV_updateEngineData r _
        (goodV_updateFuelData _
          (goodV_updateVehicleLocation tg r v h))))

theorem goodV_tickFleetAux (tg : Trig) (rs : ℕ → TickR) :
    ∀ (i : ℕ) (vs : List Vehicle), (∀ v ∈ vs, GoodV v) →
      ∀ v ∈ tickFleetAux tg rs i vs, GoodV v := by
  intro i vs
  induction vs generalizing i with
  | nil => intro _ v hv; simp [tickFleetAux] at hv
  | cons w tl IH =>
    intro hall v hv
    rw [tickFleetAux] at hv
    rcases List.mem_cons.1 hv with hv | hv
    · rw [hv]
      exact goodV_tickVehicle tg (rs i) w (hall w (List.mem_cons_self w tl))
    · exact IH (i + 1) (fun u hu => hall u (List.mem_cons_of_mem w hu)) v hv

theorem goodV_runTicks (tg : Trig) :
    ∀ (ticks : List (ℕ → TickR)) (vs : List Vehicle),
      (∀ v ∈ vs, GoodV v) → ∀ v ∈ runTicks tg ticks vs, GoodV v := by
  intro ticks
  induction ticks with
  | nil => intro vs h v hv; exact h v hv
  | cons r rest IH =>
    intro vs h v hv
    exact IH (tickFleet tg r vs)
      (goodV_tickFleetAux tg r 0 vs h) v hv

theorem goodV_initializeFleet (ir : ℕ → InitR) (h : ∀ i, (ir i).Valid) :
    ∀ v ∈ initializeFleet ir, GoodV v := by
  intro v hv
  rw [initializeFleet] at hv
  obtain ⟨i, -, rfl⟩ := List.mem_map.1 hv
  exact goodV_initVehicle i (ir i) (h i)

/-! ## The fault-code invariant (claim C8) -/

/-- The fault-code invariant: at most 3 entries, no duplicates, all drawn
from the fixed catalog. -/
def FaultInv (v : Vehicle) : Prop :=
  v.engine.faultCodes.length ≤ 3 ∧ v.engine.faultCodes.Nodup ∧
    ∀ c ∈ v.engine.faultCodes, c ∈ faultCatalog

theorem natFloor_lt_of_lt (q : ℚ) (k : ℕ) (hq : 0 ≤ q) (h : q < (k : ℚ)) :
    natFloor q < k := by
  rw [natFloor]
  have h0 : 0 ≤ ⌊q⌋ := Int.floor_nonneg.2 hq
  have h1 : ⌊q⌋ < (k : ℤ) := by
    have h2 : (⌊q⌋ : ℚ) < (k : ℚ) := lt_of_le_of_lt (Int.floor_le q) h
    exact_mod_cast h2
  omega

/-- The drawn fault code is a catalog entry whenever the draw is a valid
`Math.random()` result. -/
theorem faultCatalog_getD_mem (p : ℚ) (hp : InUnit p) :
    faultCatalog.getD (natFloor (p * 5)) "" ∈ faultCatalog := by
  have hlen : faultCatalog.length = 5 := by simp [faultCatalog]
  have hlt : (p * 5 : ℚ) < ((5 : ℕ) : ℚ) := by
    push_cast
    nlinarith [hp.1, hp.2]
  have hidx : natFloor (p * 5) < faultCatalog.length := by
    rw [hlen]
    exact natFloor_lt_of_lt _ 5 (mul_nonneg hp.1 (by norm_num)) hlt
  rw [List.getD_eq_getElem?_getD, List.getElem?_eq_getElem hidx]
  exact List.getElem_mem hidx

/-- What `updateEngineData` does to the fault-code list: either nothing, or
it appends one catalog code that is not yet present while under the cap. -/
theorem updateEngineData_faultCodes (r : TickR) (v : Vehicle)
    (hr : InUnit r.rFaultPick) :
    (updateEngineData r v).engine.faultCodes = v.engine.faultCodes ∨
      ∃ c, c ∈ faultCatalog ∧ c ∉ v.engine.faultCodes ∧
        v.engine.faultCodes.length < 3 ∧
        (updateEngineData r v).engine.faultCodes = v.engine.faultCodes ++ [c] := by
  unfold updateEngineData
  dsimp only
  split_ifs <;>
    first
      | exact Or.inl rfl
      | (rename_i hcap hmem
         exact Or.inr ⟨_, faultCatalog_getD_mem _ hr, hmem, hcap.2, rfl⟩)

theorem faultInv_tickVehicle (tg : Trig) (r : TickR) (v : Vehicle)
    (hr : InUnit r.rFaultPick) (h : FaultInv v) :
    FaultInv (tickVehicle tg r v) := by
  obtain ⟨hlen, hnd, hsub⟩ := h
  have hpre :
      (updateFuelData (updateVehicleLocation tg r v)).engine.faultCodes =
        v.engine.faultCodes := by
    rw [updateFuelData_engine, updateVehicleLocation_engine]
  have hpost :
      (tickVehicle tg r v).engine.faultCodes =
        (updateEngineData r
          (updateFuelData (updateVehicleLocation tg r v))).engine.faultCodes := by
    rw [tickVehicle, updateVehicleStatus_engine, updateDriverBehavior_engine]
  rcases updateEngineData_faultCodes r
      (updateFuelData (updateVehicleLocation tg r v)) hr with hsame | ⟨c, hcat, hmem, hcap, happ⟩
  · refine ⟨?_, ?_, ?_⟩ <;> rw [hpost, hsame, hpre]
    · exact hlen
    · exact hnd
    · exact hsub
  · rw [hpre] at hmem hcap happ
    refine ⟨?_, ?_, ?_⟩ <;> rw [hpost, happ]
    · simp only [List.length_append, List.length_cons, List.length_nil]
      omega
    · rw [List.nodup_append]
      exact ⟨hnd, List.nodup_singleton c,
        fun a ha hc => hmem ((by simpa using hc : a = c) ▸ ha)⟩
    · intro a ha
      rcases List.mem_append.1 ha with ha | ha
      · exact hsub a ha
      · exact (by simpa using ha : a = c) ▸ hcat

theorem faultInv_tickFleetAux (tg : Trig) (rs : ℕ → TickR)
    (hrs : ∀ i, InUnit (rs i).rFaultPick) :
    ∀ (i : ℕ) (vs : List Vehicle), (∀ v ∈ vs, FaultInv v) →
      ∀ v ∈ tickFleetAux tg rs i vs, FaultInv v := by
  intro i vs
  induction vs generalizing i with
  | nil => intro _ v hv; simp [tickFleetAux] at hv
  | cons w tl IH =>
    intro hall v hv
    rw [tickFleetAux] at hv
    rcases List.mem_cons.1 hv with hv | hv
    · rw [hv]
      exact faultInv_tickVehicle tg (rs i) w (hrs i)
        (hall w (List.mem_cons_self w tl))
    · exact IH (i + 1) (fun u hu => hall u (List.mem_cons_of_mem w hu)) v hv

theorem faultInv_runTicks (tg : Trig) :
    ∀ (ticks : List (ℕ → TickR)),
      (∀ rs ∈ ticks, ∀ i, InUnit (rs i).rFaultPick) →
      ∀ (vs : List Vehicle), (∀ v ∈ vs, FaultInv v) →
        ∀ v ∈ runTicks tg ticks vs, FaultInv v := by
  intro ticks
  induction ticks with
  | nil => intro _ vs h v hv; exact h v hv
  | cons r rest IH =>
    intro hval vs h v hv
    exact IH (fun rs hrs => hval rs (List.mem_cons_of_mem r hrs))
      (tickFleet tg r vs)
      (faultInv_tickFleetAux tg r (hval r (List.mem_cons_self r rest)) 0 vs h)
      v hv

theorem faultInv_initializeFleet (ir : ℕ → InitR) :
    ∀ v ∈ initializeFleet ir, FaultInv v := by
  intro v hv
  rw [initializeFleet] at hv
  obtain ⟨i, -, rfl⟩ := List.mem_map.1 hv
  refine ⟨?_, ?_, ?_⟩ <;> simp [initVehicle, FaultInv]

/-! ## What one tick does to an idle vehicle (claim C1) -/

/-- A tick of an idle vehicle leaves its speed and fuel level unchanged
and reports zero fuel consumption. -/
theorem tickVehicle_idle (tg : Trig) (r : TickR) (v : Vehicle)
    (h : v.status.state = "idle") :
    (tickVehicle tg r v).location.speed = v.location.speed ∧
      (tickVehicle tg r v).fuel.level = v.fuel.level ∧
      (tickVehicle tg r v).fuel.consumption = 0 := by
  have hloc : updateVehicleLocation tg r v = v :=
    updateVehicleLocation_idle tg r v h
  have hfl := updateFuelData_idle v h
  refine ⟨?_, ?_, ?_⟩ <;>
    rw [tickVehicle, hloc] <;>
    simp only [updateVehicleStatus_location, updateVehicleStatus_fuel,
      updateDriverBehavior_location, updateDriverBehavior_fuel,
      updateEngineData_location, updateEngineData_fuel,
      updateFuelData_location]
  · exact hfl.1
  · exact hfl.2

/-- If the tick's state-toggle draw does not fire, an idle vehicle is still
idle after the tick. -/
theorem tickVehicle_idle_stays (tg : Trig) (r : TickR) (v : Vehicle)
    (h : v.status.state = "idle") (hr : ¬r.rStateToggle < 0.01) :
    (tickVehicle tg r v).status.state = "idle" := by
  have hloc : updateVehicleLocation tg r v = v :=
    updateVehicleLocation_idle tg r v h
  rw [tickVehicle, hloc]
  rw [show (updateVehicleStatus r
      (updateDriverBehavior r (updateEngineData r (updateFuelData v)))).status =
      _ from rfl]
  have hst :
      (updateDriverBehavior r (updateEngineData r (updateFuelData v))).status =
        v.status := by
    rw [updateDriverBehavior_status, updateEngineData_status, updateFuelData_status]
  unfold updateVehicleStatus
  dsimp only
  rw [if_neg hr]
  split_ifs with hc hd <;> simp_all

/-! ## Claim theorems -/

/-- Elimination of the `let` in `checkPerformance`. -/
theorem checkPerformance_eq (frames : ℕ) (windowMs : ℚ) (tc opt : ℕ) :
    checkPerformance frames windowMs tc opt =
      if jsRound (measuredFPS frames windowMs) < 30 ∧ 8 < tc then
        max 8 (tc - 2)
      else if 50 < jsRound (measuredFPS frames windowMs) ∧ tc < opt then
        min opt (tc + 1)
      else tc := rfl

/-- Claim C3, counterexample: with 148 frames in a 5000 ms window the
spec-level `measuredFPS = 29.6` is below 30, yet `checkPerformance`
(which compares the rounded FPS, `Math.round(29.6) = 30`, against 30)
leaves `textCount = 24` unchanged instead of decreasing it to 22. -/
theorem claim_C3_counterexample :
    measuredFPS 148 5000 < 30 ∧
      checkPerformance 148 5000 24 24 = 24 ∧ (24 : ℕ) ≠ max 8 (24 - 2) := by
  refine ⟨by norm_num [measuredFPS], ?_, by norm_num⟩
  norm_num [checkPerformance, jsRound, measuredFPS]

/-- Claim C3 (amended): the governor evaluates once per window and compares
the rounded FPS `Math.round(frames * 1000 / windowMs)` against the
thresholds: strictly below 30 it decreases `textCount` by 2 with floor 8,
strictly above 50 it increases it by 1 with ceiling `optimal`, and otherwise
leaves it unchanged; the count stays in `[8, optimal]`, and with FPS 25 for
three consecutive windows an initial 24 goes 24 → 22 → 20 → 18, never below
8. -/
theorem claim_C3_governor (frames : ℕ) (windowMs : ℚ) (tc opt : ℕ)
    (h8 : 8 ≤ tc) (hco : tc ≤ opt) :
    (jsRound (measuredFPS frames windowMs) < 30 →
      checkPerformance frames windowMs tc opt = max 8 (tc - 2)) ∧
    (50 < jsRound (measuredFPS frames windowMs) →
      checkPerformance frames windowMs tc opt = min opt (tc + 1)) ∧
    (30 ≤ jsRound (measuredFPS frames windowMs) →
      jsRound (measuredFPS frames windowMs) ≤ 50 →
      checkPerformance frames windowMs tc opt = tc) ∧
    8 ≤ checkPerformance frames windowMs tc opt ∧
    checkPerformance frames windowMs tc opt ≤ opt ∧
    checkPerformance 125 5000 24 24 = 22 ∧
    checkPerformance 125 5000 22 24 = 20 ∧
    checkPerformance 125 5000 20 24 = 18 ∧
    8 ≤ checkPerformance 125 5000 20 24 := by
  refine ⟨?_, ?_, ?_, ?_, ?_, ?_, ?_, ?_, ?_⟩
  · intro hF
    rw [checkPerformance_eq]
    by_cases h8p : 8 < tc
    · rw [if_pos ⟨hF, h8p⟩]
    · have htc : tc = 8 := by omega
      subst htc
      rw [if_neg (fun hx => h8p hx.2), if_neg (fun hx => by omega)]
      omega
  · intro hF
    rw [checkPerformance_eq]
    by_cases hlt : tc < opt
    · rw [if_neg (fun hx => by omega), if_pos ⟨hF, hlt⟩]
    · have heq : tc = opt := le_antisymm hco (not_lt.1 hlt)
      subst heq
      rw [if_neg (fun hx => by omega), if_neg (fun hx => hlt hx.2)]
      omega
  · intro hF1 hF2
    rw [checkPerformance_eq]
    rw [if_neg (fun hx => by omega), if_neg (fun hx => by omega)]
  · rw [checkPerformance_eq]
    split_ifs <;> omega
  · rw [checkPerformance_eq]
    split_ifs <;> omega
  · norm_num [checkPerformance, jsRound, measuredFPS]
  · norm_num [checkPerformance, jsRound, measuredFPS]
  · norm_num [checkPerformance, jsRound, measuredFPS]
  · norm_num [checkPerformance, jsRound, measuredFPS]

/-- Witness for claim C3's theorem at frames = 125, windowMs = 5000,
textCount = 24, optimal = 24 (FPS 25, below 30: decrease by two). -/
theorem claim_C3_witness :
    checkPerformance 125 5000 24 24 = max 8 (24 - 2) := by
  have h := claim_C3_governor 125 5000 24 24 (by norm_num) (by norm_num)
  exact h.1 (by norm_num [jsRound, measuredFPS])

/-- Claim C5: `getActiveObject()` returns `null` exactly when
`inactiveElements` is empty (a well-defined empty result of a total
function, never a thrown error), and releasing an already-inactive member
(`obj.isActive = false`) leaves the entire pool state — lists, flags,
display, visibility — unchanged. -/
theorem claim_C5_acquire_release (s : Pool) (o : ℕ) :
    ((getActiveObject s).1 = none ↔ s.inactive = []) ∧
      (s.flag o = false → releaseObject s o = s) := by
  constructor
  · unfold getActiveObject
    cases hl : s.inactive.getLast? with
    | none =>
      simpa using List.getLast?_eq_none_iff.1 hl
    | some o2 =>
      dsimp only
      refine ⟨fun hx => absurd hx (by simp), fun hx => ?_⟩
      rw [hx] at hl
      simp at hl
  · intro hf
    unfold releaseObject
    rw [hf]
    simp

/-- Witness for claim C5's theorem on the freshly constructed two-object
pool and its member 0 (inactive there, so release is the identity). -/
theorem claim_C5_witness :
    ((getActiveObject (createObjectPool 2)).1 = none ↔
        (createObjectPool 2).inactive = []) ∧
      releaseObject (createObjectPool 2) 0 = createObjectPool 2 :=
  ⟨(claim_C5_acquire_release (createObjectPool 2) 0).1,
   (claim_C5_acquire_release (createObjectPool 2) 0).2 rfl⟩

/-- Claim C4: under the pool representation invariant, whenever the target
is at most both the available metric count and the capacity — as in the
running system, where `textCount ≤ 24`, capacity is 32 and the projector
always yields 49 metrics — one `updateDisplayMetrics()` reconciliation
leaves exactly `min targetActive availableMetricCount` active members,
never exceeding the capacity; and a 12-vehicle fleet indeed yields
`12 * 4 + 1 = 49` metrics. -/
theorem claim_C4_reconciliation (n t m : ℕ) (s : Pool) (hinv : PoolInv n s)
    (htm : t ≤ m) (htn : t ≤ n)
    (fleet : List Vehicle) (hf : fleet.length = 12) :
    (updateDisplayMetrics t m s).active.length = min t m ∧
      (updateDisplayMetrics t m s).active.length ≤ n ∧
      (getDisplayMetrics fleet).length = 49 := by
  obtain ⟨-, hlen⟩ := updateDisplayMetrics_spec t m s hinv
  have hmin : min t m = t := min_eq_left htm
  have h2 : min (min t m) n = t := by rw [hmin]; exact min_eq_left htn
  have h3 : min t s.active.length ≤ t := min_le_left _ _
  refine ⟨?_, ?_, ?_⟩
  · rw [hlen, h2, hmin]
    omega
  · rw [hlen, h2]
    omega
  · rw [getDisplayMetrics_length, hf]

/-- A fixed valid `Math.random()` trace for fleet construction (all draws
one half). -/
def initRC : InitR :=
  ⟨1/2, 1/2, 1/2, 1/2, 1/2, 1/2, 1/2, 1/2, 1/2, 1/2, 1/2,
   1/2, 1/2, 1/2, 1/2, 1/2, 1/2, 1/2, 1/2, 1/2, 1/2⟩

theorem initRC_valid : initRC.Valid := by
  refine ⟨?_, ?_, ?_, ?_, ?_, ?_, ?_, ?_, ?_, ?_, ?_, ?_, ?_, ?_, ?_, ?_,
    ?_, ?_, ?_, ?_, ?_⟩ <;> exact ⟨by norm_num [initRC], by norm_num [initRC]⟩

/-- Witness for claim C4's theorem: the spec's end-to-end scenario A
(capacity 32, target 24, 12 vehicles, 49 metrics). -/
theorem claim_C4_witness :
    (updateDisplayMetrics 24 49 (createObjectPool 32)).active.length =
        min 24 49 ∧
      (updateDisplayMetrics 24 49 (createObjectPool 32)).active.length ≤ 32 ∧
      (getDisplayMetrics (initializeFleet (fun _ => initRC))).length = 49 :=
  claim_C4_reconciliation 32 24 49 (createObjectPool 32) (poolInv_create 32)
    (by norm_num) (by norm_num) _ (by simp [initializeFleet])

/-- Claim C10: after construction and any interleaved sequence of
`getActiveObject` / `releaseObject` / `updateDisplayMetrics` calls, every
pooled object is in exactly one of `activeElements` and `inactiveElements`,
the two lengths sum to the pool capacity, and `obj.isActive` holds exactly
for the members of `activeElements`. -/
theorem claim_C10_partition (n : ℕ) (ops : List PoolOp) :
    (∀ i, (i ∈ (applyOps (createObjectPool n) ops).active ∨
        i ∈ (applyOps (createObjectPool n) ops).inactive) ↔ i < n) ∧
      (∀ i, ¬(i ∈ (applyOps (createObjectPool n) ops).active ∧
        i ∈ (applyOps (createObjectPool n) ops).inactive)) ∧
      (applyOps (createObjectPool n) ops).active.length +
          (applyOps (createObjectPool n) ops).inactive.length = n ∧
      (∀ i, (applyOps (createObjectPool n) ops).flag i = true ↔
        i ∈ (applyOps (createObjectPool n) ops).active) := by
  have h := poolInv_applyOps (n := n) ops (createObjectPool n) (poolInv_create n)
  exact ⟨h.mem_iff, fun i hx => h.disj i hx.1 hx.2, h.length_sum, h.flag_iff⟩

/-- Claim C2, counterexample: a member with life factor
`sin(lifePhase·π) = 1/2` projected to `z = -1` (inside the cull range) is
shown with opacity `1/2 · (1 - (-1)) · 0.9 = 0.9`, whereas the claimed
formula `sin(lifePhase·π) · (1 − clamp(z,0,1)) · 0.9` gives `0.45`: the
code does not clamp `z` below 0. -/
theorem claim_C2_counterexample :
    (updateCriticalMember (1/2) 0 0 (-1) 100 100
        ⟨true, true, 9/10, 0, 0, 7⟩).isVisible = true ∧
      (updateCriticalMember (1/2) 0 0 (-1) 100 100
        ⟨true, true, 9/10, 0, 0, 7⟩).opacity = 9/10 ∧
      specVisibilityAlpha (1/2) (-1) = 9/20 ∧ (9/10 : ℚ) ≠ 9/20 := by
  refine ⟨?_, ?_, ?_, by norm_num⟩ <;>
    norm_num [updateCriticalMember, cullingEnabled, specVisibilityAlpha, clampQ]

/-- Claim C2 (amended): for every active member and frame, with
`z` the projected normalized depth surviving the cull (`-1 ≤ z ≤ 1`), the
member ends up visible exactly when `sin(lifePhase·π) · (1 − z) · 0.9`
exceeds the 0.1 threshold, and a visible member's opacity is exactly that
value (which agrees with the claimed `1 − clamp(z,0,1)` factor only for
`z ≥ 0`); when `z` falls outside `[-1, 1]` the member ends the frame
not visible, with its content preserved; the content is preserved in every
case, and the per-frame update maps `activeElements` in place (same
length, no deactivation). -/
theorem claim_C2_alpha (sLife x y z w h : ℚ) (st : VisState) :
    (-1 ≤ z → z ≤ 1 →
      ((updateCriticalMember sLife x y z w h st).isVisible = true ↔
        1/10 < sLife * (1 - z) * (9/10)) ∧
      ((updateCriticalMember sLife x y z w h st).isVisible = true →
        (updateCriticalMember sLife x y z w h st).opacity =
          sLife * (1 - z) * (9/10))) ∧
    (z < -1 ∨ 1 < z →
      (updateCriticalMember sLife x y z w h st).isVisible = false ∧
        (updateCriticalMember sLife x y z w h st).content = st.content) ∧
    (updateCriticalMember sLife x y z w h st).content = st.content ∧
    (∀ (sL : ℕ → ℚ) (pos : ℕ → ℚ × ℚ × ℚ) (i : ℕ) (sts : List VisState),
      (updateCriticalList sL pos w h i sts).length = sts.length) := by
  have h09 : (0.9 : ℚ) = 9/10 := by norm_num
  have h01 : (0.1 : ℚ) = 1/10 := by norm_num
  refine ⟨?_, ?_, ?_, ?_⟩
  · intro hz1 hz2
    have hcull : ¬(cullingEnabled = true ∧ (z > 1 ∨ z < -1)) := by
      rintro ⟨-, hz | hz⟩ <;> linarith
    have hzle : ¬(z > 1) := by linarith
    unfold updateCriticalMember
    rw [if_neg hcull]
    dsimp only
    rw [if_neg hzle, h09, h01]
    by_cases ha : (1/10 : ℚ) < sLife * (1 - z) * (9/10) <;>
      by_cases hv : st.isVisible = true
    · have hn1 : ¬(sLife * (1 - z) * (9/10) > 1/10 ∧ ¬st.isVisible = true) :=
        fun hx => hx.2 hv
      have hn2 : ¬(sLife * (1 - z) * (9/10) ≤ 1/10 ∧ st.isVisible = true) :=
        fun hx => absurd ha (not_lt.2 hx.1)
      rw [if_neg hn1, if_neg hn2]
      dsimp only
      rw [if_pos hv]
      exact ⟨Iff.intro (fun _ => ha) (fun _ => hv), fun _ => rfl⟩
    · have hp1 : sLife * (1 - z) * (9/10) > 1/10 ∧ ¬st.isVisible = true :=
        ⟨ha, hv⟩
      rw [if_pos hp1]
      dsimp only
      rw [if_pos rfl]
      exact ⟨Iff.intro (fun _ => ha) (fun _ => rfl), fun _ => rfl⟩
    · have hn1 : ¬(sLife * (1 - z) * (9/10) > 1/10 ∧ ¬st.isVisible = true) :=
        fun hx => hx.2 hv
      have hp2 : sLife * (1 - z) * (9/10) ≤ 1/10 ∧ st.isVisible = true :=
        ⟨not_lt.1 ha, hv⟩
      rw [if_neg hn1, if_pos hp2]
      dsimp only
      rw [if_neg (Bool.false_ne_true)]
      exact ⟨Iff.intro (fun hx => absurd hx Bool.false_ne_true)
          (fun hx => absurd hx ha),
        fun hx => absurd hx Bool.false_ne_true⟩
    · have hn1 : ¬(sLife * (1 - z) * (9/10) > 1/10 ∧ ¬st.isVisible = true) :=
        fun hx => ha hx.1
      have hn2 : ¬(sLife * (1 - z) * (9/10) ≤ 1/10 ∧ st.isVisible = true) :=
        fun hx => hv hx.2
      rw [if_neg hn1, if_neg hn2]
      dsimp only
      rw [if_neg hv]
      exact ⟨Iff.intro (fun hx => absurd hx hv) (fun hx => absurd hx ha),
        fun hx => absurd hx hv⟩
  · intro hz
    have hcull : cullingEnabled = true ∧ (z > 1 ∨ z < -1) := by
      rcases hz with hz | hz
      · exact ⟨rfl, Or.inr hz⟩
      · exact ⟨rfl, Or.inl hz⟩
    unfold updateCriticalMember
    rw [if_pos hcull]
    by_cases hv : st.isVisible = true
    · rw [if_pos hv]
      exact ⟨rfl, rfl⟩
    · rw [if_neg hv]
      exact ⟨Bool.not_eq_true _ ▸ hv, rfl⟩
  · unfold updateCriticalMember
    dsimp only
    split_ifs <;> rfl
  · intro sL pos i sts
    induction sts generalizing i with
    | nil => rfl
    | cons a tl IH =>
      rw [updateCriticalList]
      simp only [List.length_cons, IH]

/-- Witness for claim C2's theorem at `sLife = 1`, `z = 1/2`, starting from
a hidden member. -/
theorem claim_C2_witness :
    ((updateCriticalMember 1 0 0 (1/2) 100 100
        ⟨false, false, 0, 0, 0, 3⟩).isVisible = true ↔
      1/10 < (1 : ℚ) * (1 - 1/2) * (9/10)) ∧
      (updateCriticalMember 1 0 0 (1/2) 100 100
        ⟨false, false, 0, 0, 0, 3⟩).content = 3 :=
  ⟨((claim_C2_alpha 1 0 0 (1/2) 100 100 ⟨false, false, 0, 0, 0, 3⟩).1
      (by norm_num) (by norm_num)).1,
   (claim_C2_alpha 1 0 0 (1/2) 100 100 ⟨false, false, 0, 0, 0, 3⟩).2.2.1⟩

/-- A trivial interpretation of the abstract trig functions (their values
are irrelevant to every claim). -/
def trigC : Trig := ⟨fun _ => 0, fun _ => 0, 0⟩

/-- A valid `Math.random()` trace whose state draw exceeds 0.8, creating an
idle vehicle; all other draws are one half. -/
def initRIdle : InitR :=
  ⟨1/2, 1/2, 1/2, 1/2, 1/2, 1/2, 1/2, 1/2, 1/2, 1/2, 1/2,
   1/2, 1/2, 1/2, 1/2, 1/2, 1/2, 1/2, 9/10, 1/2, 1/2⟩

/-- A fixed valid per-tick `Math.random()` trace (all draws one half; in
particular no state toggle, no fault, no harsh event). -/
def tickRC : TickR :=
  ⟨1/2, 1/2, 1/2, 1/2, 1/2, 1/2, 1/2, 1/2, 1/2, 1/2, 1/2, 1/2, 1/2⟩

theorem initRIdle_valid : initRIdle.Valid := by
  refine ⟨?_, ?_, ?_, ?_, ?_, ?_, ?_, ?_, ?_, ?_, ?_, ?_, ?_, ?_, ?_, ?_,
    ?_, ?_, ?_, ?_, ?_⟩ <;>
    exact ⟨by norm_num [initRIdle], by norm_num [initRIdle]⟩

theorem tickRC_valid : tickRC.Valid := by
  refine ⟨?_, ?_, ?_, ?_, ?_, ?_, ?_, ?_, ?_, ?_, ?_, ?_, ?_⟩ <;>
    exact ⟨by norm_num [tickRC], by norm_num [tickRC]⟩

/-- Iterating ticks on an idle vehicle whose toggle draw never fires keeps
it idle with unchanged speed. -/
theorem tickVehicle_idle_iter (tg : Trig) (r : TickR)
    (hr : ¬r.rStateToggle < 0.01) (v : Vehicle)
    (h : v.status.state = "idle") (k : ℕ) :
    ((tickVehicle tg r)^[k] v).status.state = "idle" ∧
      ((tickVehicle tg r)^[k] v).location.speed = v.location.speed := by
  induction k with
  | zero => exact ⟨h, rfl⟩
  | succ n IH =>
    rw [Function.iterate_succ_apply']
    exact ⟨tickVehicle_idle_stays tg r _ IH.1 hr,
      by rw [(tickVehicle_idle tg r _ IH.1).1, IH.2]⟩

/-- Claim C1, counterexample: the initial fleet can contain a vehicle that
is `idle` with speed 60, and after five consecutive ticks in which the
state-toggle draw does not fire it is still idle with speed 60 — the code
never forces an idle vehicle's speed to 0. -/
theorem claim_C1_counterexample :
    initRIdle.Valid ∧ tickRC.Valid ∧
      initVehicle 0 initRIdle ∈ initializeFleet (fun _ => initRIdle) ∧
      (initVehicle 0 initRIdle).status.state = "idle" ∧
      (initVehicle 0 initRIdle).location.speed = 60 ∧
      ((tickVehicle trigC tickRC)^[5]
        (initVehicle 0 initRIdle)).status.state = "idle" ∧
      ((tickVehicle trigC tickRC)^[5]
        (initVehicle 0 initRIdle)).location.speed = 60 ∧
      (60 : ℚ) ≠ 0 := by
  have hst : (initVehicle 0 initRIdle).status.state = "idle" := by
    norm_num [initVehicle, initRIdle]
  have hsp : (initVehicle 0 initRIdle).location.speed = 60 := by
    norm_num [initVehicle, initRIdle]
  have htog : ¬tickRC.rStateToggle < 0.01 := by norm_num [tickRC]
  have hiter := tickVehicle_idle_iter trigC tickRC htog _ hst 5
  exact ⟨initRIdle_valid, tickRC_valid,
    List.mem_map.2 ⟨0, by simp, rfl⟩, hst, hsp, hiter.1,
    by rw [hiter.2, hsp], by norm_num⟩

/-- Claim C1 (amended): a tick of an entity whose `status.state` is `idle`
leaves `location.speed` and `fuel.level` unchanged and reports zero fuel
consumption (so an idle entity shows zero consumption on every idle tick,
and its speed is 0 only if it was already 0); if the state-toggle draw does
not fire it is still idle afterwards. -/
theorem claim_C1_idle_tick (tg : Trig) (r : TickR) (v : Vehicle)
    (h : v.status.state = "idle") :
    (tickVehicle tg r v).location.speed = v.location.speed ∧
      (tickVehicle tg r v).fuel.level = v.fuel.level ∧
      (tickVehicle tg r v).fuel.consumption = 0 ∧
      (¬r.rStateToggle < 0.01 → (tickVehicle tg r v).status.state = "idle") :=
  ⟨(tickVehicle_idle tg r v h).1, (tickVehicle_idle tg r v h).2.1,
   (tickVehicle_idle tg r v h).2.2,
   fun hr => tickVehicle_idle_stays tg r v h hr⟩

/-- Witness for claim C1's theorem at the concrete idle vehicle of the
counterexample trace. -/
theorem claim_C1_witness :
    (tickVehicle trigC tickRC (initVehicle 0 initRIdle)).location.speed =
        (initVehicle 0 initRIdle).location.speed ∧
      (tickVehicle trigC tickRC (initVehicle 0 initRIdle)).fuel.level =
        (initVehicle 0 initRIdle).fuel.level ∧
      (tickVehicle trigC tickRC (initVehicle 0 initRIdle)).fuel.consumption =
        0 := by
  have h := claim_C1_idle_tick trigC tickRC (initVehicle 0 initRIdle)
    (by norm_num [initVehicle, initRIdle])
  exact ⟨h.1, h.2.1, h.2.2.1⟩

/-- Claim C6: on a tick, a driving entity's fuel level drops by exactly
`speed / efficiency / 3600 * deltaSeconds` liters floored at 0 (at the
tick level, with the speed the location update just produced), and a
non-driving entity's level is unchanged with reported consumption 0. -/
theorem claim_C6_fuel (tg : Trig) (r : TickR) (v : Vehicle) :
    (v.status.state = "driving" →
      (updateFuelData v).fuel.level =
        max 0 (v.fuel.level -
          v.location.speed / v.fuel.efficiency / 3600 *
            (updateInterval / 1000)) ∧
      (updateFuelData v).fuel.consumption =
        v.location.speed / v.fuel.efficiency / 3600 * 3600) ∧
    (v.status.state ≠ "driving" →
      (updateFuelData v).fuel.level = v.fuel.level ∧
      (updateFuelData v).fuel.consumption = 0) ∧
    (v.status.state = "driving" →
      (tickVehicle tg r v).fuel.level =
        max 0 (v.fuel.level -
          (updateVehicleLocation tg r v).location.speed /
            v.fuel.efficiency / 3600 * (updateInterval / 1000))) ∧
    (v.status.state ≠ "driving" →
      (tickVehicle tg r v).fuel.level = v.fuel.level ∧
      (tickVehicle tg r v).fuel.consumption = 0) := by
  have htickfuel :
      (tickVehicle tg r v).fuel =
        (updateFuelData (updateVehicleLocation tg r v)).fuel := by
    rw [tickVehicle, updateVehicleStatus_fuel, updateDriverBehavior_fuel,
      updateEngineData_fuel]
  refine ⟨?_, ?_, ?_, ?_⟩
  · intro h
    unfold updateFuelData
    rw [if_pos h]
    exact ⟨rfl, rfl⟩
  · intro h
    unfold updateFuelData
    rw [if_neg h]
    exact ⟨rfl, rfl⟩
  · intro h
    have hst : (updateVehicleLocation tg r v).status.state = "driving" := by
      rw [updateVehicleLocation_status]
      exact h
    rw [htickfuel]
    unfold updateFuelData
    rw [if_pos hst]
    rw [updateVehicleLocation_fuel]
  · intro h
    have hloc : updateVehicleLocation tg r v = v := by
      unfold updateVehicleLocation
      rw [if_neg h]
    rw [htickfuel, hloc]
    unfold updateFuelData
    rw [if_neg h]
    exact ⟨rfl, rfl⟩

/-- Witness for claim C6's theorem: a concrete driving vehicle and a
concrete idle vehicle. -/
theorem claim_C6_witness :
    (updateFuelData (initVehicle 1 initRC)).fuel.level =
        max 0 ((initVehicle 1 initRC).fuel.level -
          (initVehicle 1 initRC).location.speed /
            (initVehicle 1 initRC).fuel.efficiency / 3600 *
            (updateInterval / 1000)) ∧
      (tickVehicle trigC tickRC (initVehicle 0 initRIdle)).fuel.level =
          (initVehicle 0 initRIdle).fuel.level ∧
        (tickVehicle trigC tickRC (initVehicle 0 initRIdle)).fuel.consumption =
          0 := by
  have h1 := claim_C6_fuel trigC tickRC (initVehicle 1 initRC)
  have h2 := claim_C6_fuel trigC tickRC (initVehicle 0 initRIdle)
  refine ⟨(h1.1 ?_).1, h2.2.2.2 ?_⟩
  · norm_num [initVehicle, initRC]
  · rw [show (initVehicle 0 initRIdle).status.state = "idle" from
      by norm_num [initVehicle, initRIdle]]
    decide

/-- Claim C7: starting from the initial fleet, along any run of simulation
ticks every vehicle's fuel level stays in `[0, capacity]` and its driver
score stays in `[50, 100]`. -/
theorem claim_C7_bounds (tg : Trig) (ir : ℕ → InitR) (hi : ∀ i, (ir i).Valid)
    (ticks : List (ℕ → TickR)) (v : Vehicle)
    (hv : v ∈ runTicks tg ticks (initializeFleet ir)) :
    0 ≤ v.fuel.level ∧ v.fuel.level ≤ v.fuel.capacity ∧
      50 ≤ v.driver.score ∧ v.driver.score ≤ 100 := by
  have h := goodV_runTicks tg ticks (initializeFleet ir)
    (goodV_initializeFleet ir hi) v hv
  exact ⟨h.1, h.2.1, h.2.2.2.2.2.1, h.2.2.2.2.2.2⟩

/-- Witness for claim C7's theorem: the first vehicle of the concrete
initial fleet, zero ticks. -/
theorem claim_C7_witness :
    0 ≤ (initVehicle 0 initRC).fuel.level ∧
      (initVehicle 0 initRC).fuel.level ≤
        (initVehicle 0 initRC).fuel.capacity ∧
      50 ≤ (initVehicle 0 initRC).driver.score ∧
      (initVehicle 0 initRC).driver.score ≤ 100 :=
  claim_C7_bounds trigC (fun _ => initRC) (fun _ => initRC_valid) []
    (initVehicle 0 initRC) (List.mem_map.2 ⟨0, by simp, rfl⟩)

/-- Claim C8: along any run from the initial fleet, a vehicle's
`engine.faultCodes` has at most 3 entries, no duplicates, only catalog
codes; and one further tick either leaves the list unchanged or appends a
single catalog code that was absent, only under the 3-code cap. -/
theorem claim_C8_faults (tg : Trig) (ir : ℕ → InitR)
    (ticks : List (ℕ → TickR))
    (hticks : ∀ rs ∈ ticks, ∀ i, InUnit (rs i).rFaultPick)
    (v : Vehicle) (hv : v ∈ runTicks tg ticks (initializeFleet ir))
    (r : TickR) (hr : InUnit r.rFaultPick) :
    v.engine.faultCodes.length ≤ 3 ∧ v.engine.faultCodes.Nodup ∧
      (∀ c ∈ v.engine.faultCodes, c ∈ faultCatalog) ∧
      ((tickVehicle tg r v).engine.faultCodes = v.engine.faultCodes ∨
        ∃ c, c ∈ faultCatalog ∧ c ∉ v.engine.faultCodes ∧
          v.engine.faultCodes.length < 3 ∧
          (tickVehicle tg r v).engine.faultCodes =
            v.engine.faultCodes ++ [c]) := by
  have h := faultInv_runTicks tg ticks hticks (initializeFleet ir)
    (faultInv_initializeFleet ir) v hv
  refine ⟨h.1, h.2.1, h.2.2, ?_⟩
  have hpre :
      (updateFuelData (updateVehicleLocation tg r v)).engine.faultCodes =
        v.engine.faultCodes := by
    rw [updateFuelData_engine, updateVehicleLocation_engine]
  have hpost :
      (tickVehicle tg r v).engine.faultCodes =
        (updateEngineData r
          (updateFuelData
            (updateVehicleLocation tg r v))).engine.faultCodes := by
    rw [tickVehicle, updateVehicleStatus_engine, updateDriverBehavior_engine]
  rcases updateEngineData_faultCodes r
      (updateFuelData (updateVehicleLocation tg r v)) hr with
    hs | ⟨c, h1, h2, h3, h4⟩
  · left
    rw [hpost, hs, hpre]
  · right
    exact ⟨c, h1, hpre ▸ h2, hpre ▸ h3, by rw [hpost, h4, hpre]⟩

/-- Witness for claim C8's theorem: first vehicle of the concrete fleet,
zero ticks, one further concrete tick. -/
theorem claim_C8_witness :
    (initVehicle 0 initRC).engine.faultCodes.length ≤ 3 ∧
      (initVehicle 0 initRC).engine.faultCodes.Nodup ∧
      (∀ c ∈ (initVehicle 0 initRC).engine.faultCodes, c ∈ faultCatalog) ∧
      ((tickVehicle trigC tickRC (initVehicle 0 initRC)).engine.faultCodes =
          (initVehicle 0 initRC).engine.faultCodes ∨
        ∃ c, c ∈ faultCatalog ∧
          c ∉ (initVehicle 0 initRC).engine.faultCodes ∧
          (initVehicle 0 initRC).engine.faultCodes.length < 3 ∧
          (tickVehicle trigC tickRC
              (initVehicle 0 initRC)).engine.faultCodes =
            (initVehicle 0 initRC).engine.faultCodes ++ [c]) :=
  claim_C8_faults trigC (fun _ => initRC) [] (by simp)
    (initVehicle 0 initRC) (List.mem_map.2 ⟨0, by simp, rfl⟩)
    tickRC ⟨by norm_num [tickRC], by norm_num [tickRC]⟩

/-- Claim C9: `getDisplayMetrics` is a pure function of the vehicle list
that emits, for each vehicle in population order, exactly the four metrics
Location, Fuel, Engine, Driver in that fixed order (each tagged with the
vehicle's id), followed by exactly one fleet summary metric; and the
severity thresholds are: Fuel critical below 20%, warning in `[20%, 40%)`;
Engine warning above 100°; Driver warning below score 70; fleet summary
warning when the connected count is below 90% of the total. -/
theorem claim_C9_projector (vs : List Vehicle) (v : Vehicle) :
    getDisplayMetrics vs = (vs.flatMap vehicleMetrics) ++ [fleetMetric vs] ∧
      (getDisplayMetrics vs).length = 4 * vs.length + 1 ∧
      (vehicleMetrics v).map Metric.type =
        ["location", "fuel", "engine", "driver"] ∧
      (∀ mt ∈ vehicleMetrics v, mt.vehicleId = v.id) ∧
      ((fuelMetric v).status = "critical" ↔ fuelPercent v < 20) ∧
      ((fuelMetric v).status = "warning" ↔
        20 ≤ fuelPercent v ∧ fuelPercent v < 40) ∧
      ((engineMetric v).status = "warning" ↔ 100 < v.engine.temperature) ∧
      ((driverMetric v).status = "warning" ↔ v.driver.score < 70) ∧
      ((fleetMetric vs).status = "warning" ↔
        ((getFleetSummary vs).connected : ℚ) <
          ((getFleetSummary vs).total : ℚ) * 0.9) ∧
      (fleetMetric vs).vehicleId = "FLEET" ∧ (fleetMetric vs).type = "fleet" := by
  refine ⟨rfl, getDisplayMetrics_length vs, rfl, ?_, ?_, ?_, ?_, ?_, ?_,
    rfl, rfl⟩
  · intro mt hmt
    simp only [vehicleMetrics, List.mem_cons, List.not_mem_nil, or_false] at hmt
    rcases hmt with rfl | rfl | rfl | rfl <;> rfl
  · unfold fuelMetric
    dsimp only
    split_ifs with h1 h2
    · exact iff_of_true rfl h1
    · exact iff_of_false (by decide) h1
    · exact iff_of_false (by decide) h1
  · unfold fuelMetric
    dsimp only
    split_ifs with h1 h2
    · exact iff_of_false (by decide)
        (fun hx => absurd hx.1 (not_le.2 h1))
    · exact iff_of_true rfl ⟨not_lt.1 h1, h2⟩
    · exact iff_of_false (by decide) (fun hx => h2 hx.2)
  · unfold engineMetric
    dsimp only
    split_ifs with h1
    · exact iff_of_true rfl h1
    · exact iff_of_false (by decide) h1
  · unfold driverMetric
    dsimp only
    split_ifs with h1
    · exact iff_of_true rfl h1
    · exact iff_of_false (by decide) h1
  · unfold fleetMetric
    dsimp only
    split_ifs with h1
    · exact iff_of_true rfl h1
    · exact iff_of_false (by decide) h1

/-- Witness for claim C9's theorem at a one-vehicle fleet: the fuel metric
severity and per-metric vehicle id instantiate concretely. -/
theorem claim_C9_witness :
    (locationMetric (initVehicle 0 initRC)).vehicleId =
        (initVehicle 0 initRC).id ∧
      (getDisplayMetrics [initVehicle 0 initRC]).length = 5 := by
  have h := claim_C9_projector [initVehicle 0 initRC] (initVehicle 0 initRC)
  refine ⟨h.2.2.2.1 (locationMetric (initVehicle 0 initRC)) ?_, ?_⟩
  · simp [vehicleMetrics]
  · rw [h.2.1]
    norm_num

/-- Witness for claim C10's theorem after one acquisition on a two-object
pool. -/
theorem claim_C10_witness :
    ((applyOps (createObjectPool 2) [PoolOp.acquire]).active.length +
        (applyOps (createObjectPool 2) [PoolOp.acquire]).inactive.length = 2) ∧
      ((applyOps (createObjectPool 2) [PoolOp.acquire]).flag 1 = true ↔
        1 ∈ (applyOps (createObjectPool 2) [PoolOp.acquire]).active) := by
  have h := claim_C10_partition 2 [PoolOp.acquire]
  exact ⟨h.2.2.1, h.2.2.2 1⟩
